import Mathlib

/-!
Shallow embedding of the solar dashboard recomputation pipeline
(src/SolarDashboard.py): the parsed series, the decimation used for the
smoothed overlay, the cycle folding via floating-point modulo, the range
label, and the Dash callback named in the source as a state transition on
the global figure and dataframe. Numeric values are modelled as rationals.
-/

/-- One parsed row of the source CSV (lines 17-20 of the source). -/
structure SeriesRow where
  year : Int
  month : Int
  timeFraction : ℚ
  meanValue : ℚ
  meanStdDev : ℚ
  observationCount : ℚ
  isDefinitive : Int
  deriving DecidableEq, Repr

/-- Error kinds raisable at the modelled call sites, together with the
validation error named by the design documents. -/
inductive PyError where
  | zeroDivisionError
  | valueError
  | invalidParameterError
  deriving DecidableEq, Repr

/-- Python floating-point modulo for a nonzero divisor:
x mod L = x - L * floor (x / L); the result has the sign of the divisor. -/
def pymod (x L : ℚ) : ℚ := x - L * ⌊x / L⌋

/-- Python modulo including the error raised on a zero divisor. -/
def pyFloatMod (x L : ℚ) : Except PyError ℚ :=
  if L = 0 then .error .zeroDivisionError else .ok (pymod x L)

/-- CycleFolder: row-by-row computation of the Variability column and its
pairing with the monthly mean (lines 113 and 116 of the source). Each row
contributes (timeFraction mod cycleLength, meanValue); a zero cycle length
raises a division error at the first row. -/
def fold : List SeriesRow → ℚ → Except PyError (List (ℚ × ℚ))
  | [], _ => .ok []
  | r :: rest, L => do
    let p ← pyFloatMod r.timeFraction L
    let ps ← fold rest L
    pure ((p, r.meanValue) :: ps)

/-- Positive-stride slice semantics: the elements at indices
0, s, 2 * s, and so on. -/
def everyNth : List α → Nat → List α
  | [], _ => []
  | a :: rest, s => a :: everyNth (rest.drop (s - 1)) s
termination_by l _ => l.length
decreasing_by simp [List.length_drop]; omega

/-- Pandas positional slicing with an integer step over the row list:
step 0 raises an error, a positive step decimates forward, a negative
step decimates the reversed list. -/
def ilocSlice (l : List α) (s : Int) : Except PyError (List α) :=
  if s = 0 then .error .valueError
  else if 0 < s then .ok (everyNth l s.toNat)
  else .ok (everyNth l.reverse (-s).toNat)

/-- Resampler: every stride-th observation paired as
(timeFraction, meanValue) (lines 105-106 of the source). -/
def resample (series : List SeriesRow) (s : Int) : Except PyError (List (ℚ × ℚ)) :=
  (ilocSlice series s).map (List.map (fun r => (r.timeFraction, r.meanValue)))

/-- The range label format string of line 110 of the source. -/
def yearLabel (ws we : Int) : String :=
  "You are currently viewing the years " ++ toString ws ++ " to " ++ toString we ++ "!"

/-- WindowFilter label production as the source implements it: the label
is built unconditionally, with no bound validation and no clamping. -/
def describe (ws we : Int) : Except PyError String :=
  .ok (yearLabel ws we)

/-- One plotly trace, reduced to the fields the callback manipulates. -/
structure Trace where
  xs : List ℚ
  ys : List ℚ
  name : String
  lineColor : String
  deriving DecidableEq, Repr

/-- The global line figure: x-axis range plus trace list. -/
structure Figure where
  xrange : Option (Int × Int)
  data : List Trace
  deriving DecidableEq, Repr

/-- The full-series line trace created at module load (line 26). -/
def baseTrace (rows : List SeriesRow) : Trace :=
  { xs := rows.map SeriesRow.timeFraction
    ys := rows.map SeriesRow.meanValue
    name := "Monthly Mean"
    lineColor := "" }

/-- The red overlay trace added by the callback (lines 106-107). -/
def smoothedTrace (pts : List (ℚ × ℚ)) : Trace :=
  { xs := pts.map Prod.fst
    ys := pts.map Prod.snd
    name := "Smoothed"
    lineColor := "red" }

/-- Global mutable state of the running dashboard: the parsed dataframe is
the seven source columns (rows) plus the derived Variability column, and
fig is the shared line figure mutated in place by the callback. -/
structure DashState where
  rows : List SeriesRow
  variability : List ℚ
  fig : Figure
  deriving DecidableEq, Repr

/-- The three slider values delivered to the callback. -/
structure ViewParams where
  windowStart : Int
  windowEnd : Int
  stride : Int
  cycleLength : ℚ
  deriving DecidableEq, Repr

/-- The rebuilt variability scatter: assumed cycle length and the
(phase, meanValue) points (lines 116-119 of the source). -/
structure SecondaryView where
  cycleLength : ℚ
  foldedPoints : List (ℚ × ℚ)
  deriving DecidableEq, Repr

/-- Output tuple of the callback: the mutated line figure, the rebuilt
variability scatter, and the year label. -/
structure RefreshOutput where
  fig : Figure
  varFig : SecondaryView
  label : String
  deriving DecidableEq, Repr

/-- The Dash refresh callback (lines 97-120 of the source) as a state
transition executed in program order: update the x-range, drop every
trace after the first, add the freshly decimated overlay, build the
label, overwrite the Variability column, rebuild the scatter. An
exception raised mid-body propagates and leaves the mutations made so
far in place. -/
def refresh (st : DashState) (p : ViewParams) :
    DashState × Except PyError RefreshOutput :=
  match resample st.rows p.stride with
  | .error e =>
    ({ st with fig := { xrange := some (p.windowStart, p.windowEnd),
                        data := st.fig.data.take 1 } },
     .error e)
  | .ok overlay =>
    match fold st.rows p.cycleLength with
    | .error e =>
      ({ st with fig := { xrange := some (p.windowStart, p.windowEnd),
                          data := st.fig.data.take 1 ++ [smoothedTrace overlay] } },
       .error e)
    | .ok folded =>
      ({ st with
           fig := { xrange := some (p.windowStart, p.windowEnd),
                    data := st.fig.data.take 1 ++ [smoothedTrace overlay] },
           variability := folded.map Prod.fst },
       .ok { fig := { xrange := some (p.windowStart, p.windowEnd),
                      data := st.fig.data.take 1 ++ [smoothedTrace overlay] }
             varFig := { cycleLength := p.cycleLength, foldedPoints := folded }
             label := yearLabel p.windowStart p.windowEnd })

/-- The module-level label literal of line 31 of the source. -/
def initialYearLabel : String := "You are currently viewing the years 1749 to 2022!"

/-- Lower bound of the year RangeSlider (line 62). -/
def sliderMin : Int := 1749

/-- Upper bound of the year RangeSlider (line 62). -/
def sliderMax : Int := 2022

/-- Default window value of the year RangeSlider (line 62). -/
def defaultWindow : Int × Int := (sliderMin, sliderMax)

/-- Default smoothness slider value (line 69). -/
def defaultStride : Int := 5

/-- Default cycle-length slider value (line 76). -/
def defaultCycleLength : ℚ := 11

/-- Program state right after module load: the parsed rows, the
Variability column computed at the assumed cycle length 11 (line 35),
and the figure holding the single full-series trace (line 26). -/
def initialState (rows : List SeriesRow) : DashState :=
  { rows := rows
    variability := rows.map (fun r => pymod r.timeFraction 11)
    fig := { xrange := none, data := [baseTrace rows] } }

/-- The initial variability scatter built at module load (lines 38-40). -/
def initialVarFig (rows : List SeriesRow) : SecondaryView :=
  { cycleLength := 11
    foldedPoints :=
      (rows.map (fun r => pymod r.timeFraction 11)).zip (rows.map SeriesRow.meanValue) }

/-- Runs a sequence of callback invocations, threading the global state. -/
def runSeq (st : DashState) (ps : List ViewParams) : DashState :=
  ps.foldl (fun s p => (refresh s p).1) st

/-- The 3-row synthetic series of the end-to-end test property. -/
def demoRows : List SeriesRow :=
  [ { year := 0, month := 1, timeFraction := 0, meanValue := 10,
      meanStdDev := 0, observationCount := 0, isDefinitive := 1 },
    { year := 1, month := 1, timeFraction := 1, meanValue := 20,
      meanStdDev := 0, observationCount := 0, isDefinitive := 1 },
    { year := 2, month := 1, timeFraction := 2, meanValue := 30,
      meanStdDev := 0, observationCount := 0, isDefinitive := 1 } ]

/-! ## Basic facts about the modulo, the folding and the decimation -/

theorem pymod_nonneg (x L : ℚ) (hL : 0 < L) : 0 ≤ pymod x L := by
  unfold pymod
  have h1 : ((⌊x / L⌋ : ℤ) : ℚ) ≤ x / L := Int.floor_le (x / L)
  have h2 : L * ((⌊x / L⌋ : ℤ) : ℚ) ≤ L * (x / L) :=
    mul_le_mul_of_nonneg_left h1 hL.le
  have h3 : L * (x / L) = x := by field_simp
  linarith

theorem pymod_lt (x L : ℚ) (hL : 0 < L) : pymod x L < L := by
  unfold pymod
  have h1 : x / L < ((⌊x / L⌋ : ℤ) : ℚ) + 1 := Int.lt_floor_add_one (x / L)
  have h2 : L * (x / L) < L * (((⌊x / L⌋ : ℤ) : ℚ) + 1) :=
    mul_lt_mul_of_pos_left h1 hL
  have h3 : L * (x / L) = x := by field_simp
  have h4 : L * (((⌊x / L⌋ : ℤ) : ℚ) + 1) = L * ((⌊x / L⌋ : ℤ) : ℚ) + L := by ring
  linarith

theorem pymod_nonpos (x L : ℚ) (hL : L < 0) : pymod x L ≤ 0 := by
  unfold pymod
  have hL' : L ≠ 0 := ne_of_lt hL
  have h1 : ((⌊x / L⌋ : ℤ) : ℚ) ≤ x / L := Int.floor_le (x / L)
  have h2 : L * (x / L) ≤ L * ((⌊x / L⌋ : ℤ) : ℚ) :=
    mul_le_mul_of_nonpos_left h1 hL.le
  have h3 : L * (x / L) = x := by field_simp
  linarith

theorem pymod_gt (x L : ℚ) (hL : L < 0) : L < pymod x L := by
  unfold pymod
  have hL' : L ≠ 0 := ne_of_lt hL
  have h1 : x / L < ((⌊x / L⌋ : ℤ) : ℚ) + 1 := Int.lt_floor_add_one (x / L)
  have h2 : L * (((⌊x / L⌋ : ℤ) : ℚ) + 1) < L * (x / L) :=
    mul_lt_mul_of_neg_left h1 hL
  have h3 : L * (x / L) = x := by field_simp
  have h4 : L * (((⌊x / L⌋ : ℤ) : ℚ) + 1) = L * ((⌊x / L⌋ : ℤ) : ℚ) + L := by ring
  linarith

theorem fold_ok (series : List SeriesRow) (L : ℚ) (hL : L ≠ 0) :
    fold series L = .ok (series.map (fun r => (pymod r.timeFraction L, r.meanValue))) := by
  induction series with
  | nil => rfl
  | cons r rest ih =>
    simp [fold, pyFloatMod, hL, ih]
    rfl

theorem everyNth_one : ∀ (l : List α), everyNth l 1 = l
  | [] => by rw [everyNth]
  | a :: rest => by rw [everyNth]; simp [everyNth_one rest]

theorem everyNth_length_aux {s : Nat} (hs : 1 ≤ s) :
    ∀ (n : Nat) (l : List α), l.length ≤ n →
      (everyNth l s).length = (l.length + s - 1) / s := by
  intro n
  induction n with
  | zero =>
    intro l hl
    have he : l = [] := List.eq_nil_of_length_eq_zero (Nat.le_zero.mp hl)
    subst he
    rw [everyNth]
    exact (Nat.div_eq_of_lt (by simp; omega)).symm
  | succ n ih =>
    intro l hl
    match l with
    | [] =>
      rw [everyNth]
      exact (Nat.div_eq_of_lt (by simp; omega)).symm
    | a :: rest =>
      rw [everyNth]
      have hlen : (rest.drop (s - 1)).length = rest.length - (s - 1) :=
        List.length_drop _ _
      have hrec := ih (rest.drop (s - 1))
        (by rw [hlen]; simp at hl; omega)
      simp only [List.length_cons]
      rw [hrec, hlen]
      rcases le_or_lt (s - 1) rest.length with h | h
      · have e2 : rest.length - (s - 1) + s - 1 = rest.length := by omega
        have e3 : rest.length + 1 + s - 1 = rest.length + s := by omega
        rw [e2, e3, Nat.add_div_right _ (by omega)]
      · have e2 : rest.length - (s - 1) = 0 := by omega
        have e3 : rest.length + 1 + s - 1 = rest.length + s := by omega
        rw [e2, e3]
        have h4 : (0 + s - 1) / s = 0 := Nat.div_eq_of_lt (by omega)
        have h5 : (rest.length + s) / s = 1 := by
          rw [Nat.add_div_right _ (by omega), Nat.div_eq_of_lt (by omega)]
        omega

theorem everyNth_length {s : Nat} (hs : 1 ≤ s) (l : List α) :
    (everyNth l s).length = (l.length + s - 1) / s :=
  everyNth_length_aux hs l.length l le_rfl

theorem everyNth_getElem?_aux {s : Nat} (hs : 1 ≤ s) :
    ∀ (n : Nat) (l : List α) (i : Nat), l.length ≤ n →
      (everyNth l s)[i]? = l[i * s]? := by
  intro n
  induction n with
  | zero =>
    intro l i hl
    have he : l = [] := List.eq_nil_of_length_eq_zero (Nat.le_zero.mp hl)
    subst he
    rw [everyNth]
    simp
  | succ n ih =>
    intro l i hl
    match l with
    | [] => rw [everyNth]; simp
    | a :: rest =>
      rw [everyNth]
      match i with
      | 0 => simp
      | i + 1 =>
        rw [List.getElem?_cons_succ]
        rw [ih (rest.drop (s - 1)) i (by simp [List.length_drop]; simp at hl; omega)]
        rw [List.getElem?_drop]
        have e : (i + 1) * s = (s - 1 + i * s) + 1 := by
          rw [Nat.succ_mul]
          omega
        rw [e, List.getElem?_cons_succ]

theorem everyNth_getElem? {s : Nat} (hs : 1 ≤ s) (l : List α) (i : Nat) :
    (everyNth l s)[i]? = l[i * s]? :=
  everyNth_getElem?_aux hs l.length l i le_rfl

/-! ## State-machine lemmas for the refresh callback -/

theorem refresh_out_congr (st st' : DashState) (p : ViewParams)
    (hrows : st.rows = st'.rows)
    (hbase : st.fig.data.take 1 = st'.fig.data.take 1) :
    (refresh st p).2 = (refresh st' p).2 := by
  unfold refresh
  rw [hrows, hbase]
  cases resample st'.rows p.stride with
  | error e => rfl
  | ok overlay =>
    cases fold st'.rows p.cycleLength with
    | error e => rfl
    | ok folded => rfl

theorem refresh_state_invariant (st : DashState) (p : ViewParams)
    (rows : List SeriesRow) (tr : Trace)
    (hrows : st.rows = rows) (hbase : st.fig.data.take 1 = [tr]) :
    ((refresh st p).1).rows = rows ∧ ((refresh st p).1).fig.data.take 1 = [tr] := by
  unfold refresh
  cases resample st.rows p.stride with
  | error e =>
    exact ⟨hrows, by simp [List.take_take, hbase]⟩
  | ok overlay =>
    cases fold st.rows p.cycleLength with
    | error e => exact ⟨hrows, by rw [hbase]; rfl⟩
    | ok folded => exact ⟨hrows, by rw [hbase]; rfl⟩

theorem runSeq_invariant (rows : List SeriesRow) (qs : List ViewParams) :
    ∀ st : DashState, st.rows = rows → st.fig.data.take 1 = [baseTrace rows] →
      (runSeq st qs).rows = rows ∧
      (runSeq st qs).fig.data.take 1 = [baseTrace rows] := by
  induction qs with
  | nil => intro st h1 h2; exact ⟨h1, h2⟩
  | cons q rest ih =>
    intro st h1 h2
    have h := refresh_state_invariant st q rows (baseTrace rows) h1 h2
    exact ih (refresh st q).1 h.1 h.2

/-! ## Claim theorems -/

/-- C3 (amended): every refresh invocation leaves the seven parsed source
columns of the series (the rows) unchanged, whether it succeeds or fails;
the derived Variability column and the shared figure, by contrast, are
mutated in place and retained between calls. -/
theorem refresh_preserves_rows (st : DashState) (p : ViewParams) :
    ((refresh st p).1).rows = st.rows := by
  unfold refresh
  cases resample st.rows p.stride with
  | error e => rfl
  | ok overlay =>
    cases fold st.rows p.cycleLength with
    | error e => rfl
    | ok folded => rfl

/-- C3 counterexample: one successful recompute at cycle length 2 overwrites
the shared Variability column, so the stored dataframe state no longer
equals its value at load time (where the column was built with length 11). -/
theorem refresh_mutates_derived_state :
    ((refresh (initialState demoRows)
        { windowStart := 0, windowEnd := 2, stride := 1, cycleLength := 2 }).1).variability
      ≠ (initialState demoRows).variability := by
  have h1 : resample demoRows 1 = .ok [(0, 10), (1, 20), (2, 30)] := by
    simp [resample, ilocSlice, everyNth, demoRows, Except.map]
  have h2 : fold demoRows 2 = .ok [(0, 10), (1, 20), (0, 30)] := by
    rw [fold_ok demoRows 2 (by norm_num)]
    simp [demoRows, pymod]
    norm_num
  unfold refresh
  rw [show (initialState demoRows).rows = demoRows from rfl, h1, h2]
  simp [initialState, demoRows, pymod]
  norm_num

/-- C4: the output tuple of the refresh callback is determined by the slider
values alone: starting from the loaded program state, recomputing with
parameters p returns the same (figure, scatter, label) triple no matter
which other invocations, valid or invalid, ran in between; in particular two
calls with identical parameters return bit-identical outputs. -/
theorem recompute_idempotent (rows : List SeriesRow) (qs : List ViewParams)
    (p : ViewParams) :
    (refresh (runSeq (initialState rows) qs) p).2
      = (refresh (initialState rows) p).2 := by
  have hinit : (initialState rows).fig.data.take 1 = [baseTrace rows] := rfl
  have h := runSeq_invariant rows qs (initialState rows) rfl hinit
  exact refresh_out_congr _ _ p (h.1.trans rfl) (h.2.trans hinit.symm)

/-- C10: after any invocation of the refresh callback with a positive
stride, the primary figure holds exactly two traces: the original
full-series trace kept as trace 0, plus the freshly decimated overlay of
that invocation, regardless of the number and order of prior invocations. -/
theorem two_traces_invariant (rows : List SeriesRow) (qs : List ViewParams)
    (p : ViewParams) (hs : 1 ≤ p.stride) :
    ∃ pts, resample rows p.stride = .ok pts ∧
      (runSeq (initialState rows) (qs ++ [p])).fig.data
        = [baseTrace rows, smoothedTrace pts] := by
  have hinit : (initialState rows).fig.data.take 1 = [baseTrace rows] := rfl
  have h := runSeq_invariant rows qs (initialState rows) rfl hinit
  have hrun : runSeq (initialState rows) (qs ++ [p])
      = (refresh (runSeq (initialState rows) qs) p).1 := by
    simp [runSeq, List.foldl_append]
  have hres : resample rows p.stride
      = .ok ((everyNth rows p.stride.toNat).map
          (fun r => (r.timeFraction, r.meanValue))) := by
    unfold resample ilocSlice
    rw [if_neg (by omega : ¬ p.stride = 0), if_pos (by omega : 0 < p.stride)]
    rfl
  refine ⟨_, hres, ?_⟩
  rw [hrun]
  unfold refresh
  rw [h.1, hres]
  cases fold rows p.cycleLength with
  | error e => simp [h.2]
  | ok folded => simp [h.2]

/-- C10 witness: a concrete run with one earlier invocation followed by a
stride-2 invocation ends with exactly the base trace and the new overlay. -/
theorem two_traces_invariant_witness :
    ∃ pts, resample demoRows 2 = .ok pts ∧
      (runSeq (initialState demoRows)
          ([{ windowStart := 0, windowEnd := 2, stride := 1, cycleLength := 3 }] ++
           [{ windowStart := 0, windowEnd := 2, stride := 2, cycleLength := 1 }])).fig.data
        = [baseTrace demoRows, smoothedTrace pts] :=
  two_traces_invariant demoRows
    [{ windowStart := 0, windowEnd := 2, stride := 1, cycleLength := 3 }]
    { windowStart := 0, windowEnd := 2, stride := 2, cycleLength := 1 }
    (by decide)

theorem refresh_ok (st : DashState) (p : ViewParams)
    (overlay folded : List (ℚ × ℚ))
    (h1 : resample st.rows p.stride = .ok overlay)
    (h2 : fold st.rows p.cycleLength = .ok folded) :
    (refresh st p).2 = .ok
      { fig := { xrange := some (p.windowStart, p.windowEnd),
                 data := st.fig.data.take 1 ++ [smoothedTrace overlay] },
        varFig := { cycleLength := p.cycleLength, foldedPoints := folded },
        label := yearLabel p.windowStart p.windowEnd } := by
  unfold refresh
  rw [h1, h2]

/-- C1: for every series and every positive cycle length L, fold succeeds
and returns one point per row in the original row order, the i-th point
pairing timeFraction mod L with that row's meanValue, and every folded
phase lies in the half-open interval [0, L). -/
theorem fold_spec (series : List SeriesRow) (L : ℚ) (hL : 0 < L) :
    ∃ pts, fold series L = .ok pts ∧
      pts = series.map (fun r => (pymod r.timeFraction L, r.meanValue)) ∧
      ∀ pt ∈ pts, 0 ≤ pt.1 ∧ pt.1 < L := by
  refine ⟨_, fold_ok series L (ne_of_gt hL), rfl, ?_⟩
  intro pt hpt
  simp only [List.mem_map] at hpt
  obtain ⟨r, _, hr⟩ := hpt
  subst hr
  exact ⟨pymod_nonneg _ _ hL, pymod_lt _ _ hL⟩

/-- C1 witness: the concrete instantiation at the 3-row series with L = 1. -/
theorem fold_spec_witness :
    ∃ pts, fold demoRows 1 = .ok pts ∧
      pts = demoRows.map (fun r => (pymod r.timeFraction 1, r.meanValue)) ∧
      ∀ pt ∈ pts, 0 ≤ pt.1 ∧ pt.1 < 1 :=
  fold_spec demoRows 1 (by norm_num)

/-- C2: for every integer stride s ≥ 1, resample succeeds and returns
exactly ceil (n / s) points in chronological order, the i-th being the
(timeFraction, meanValue) pair of the row at index i * s; stride 1
returns every point of the series. -/
theorem resample_spec (series : List SeriesRow) (s : Int) (hs : 1 ≤ s) :
    ∃ pts, resample series s = .ok pts ∧
      pts.length = (series.length + s.toNat - 1) / s.toNat ∧
      (∀ i : Nat, pts[i]? =
        (series[i * s.toNat]?).map (fun r => (r.timeFraction, r.meanValue))) ∧
      (s = 1 → pts = series.map (fun r => (r.timeFraction, r.meanValue))) := by
  have hs1 : 1 ≤ s.toNat := by omega
  have hres : resample series s
      = .ok ((everyNth series s.toNat).map
          (fun r => (r.timeFraction, r.meanValue))) := by
    unfold resample ilocSlice
    rw [if_neg (by omega : ¬ s = 0), if_pos (by omega : 0 < s)]
    rfl
  refine ⟨_, hres, ?_, ?_, ?_⟩
  · rw [List.length_map, everyNth_length hs1]
  · intro i
    rw [List.getElem?_map, everyNth_getElem? hs1]
  · intro h1
    subst h1
    rw [show (1 : Int).toNat = 1 from rfl, everyNth_one]

/-- C2 witness: the concrete instantiation at the 3-row series with
stride 2. -/
theorem resample_spec_witness :
    ∃ pts, resample demoRows 2 = .ok pts ∧
      pts.length = (demoRows.length + (2 : Int).toNat - 1) / (2 : Int).toNat ∧
      (∀ i : Nat, pts[i]? =
        (demoRows[i * (2 : Int).toNat]?).map
          (fun r => (r.timeFraction, r.meanValue))) ∧
      ((2 : Int) = 1 → pts = demoRows.map (fun r => (r.timeFraction, r.meanValue))) :=
  resample_spec demoRows 2 (by norm_num)

/-- C5 (amended): a zero cycle length makes fold (and the refresh call)
fail, but with the modulo division error rather than a validation error,
and a negative cycle length is not rejected at all: fold succeeds, with
every phase in the interval (L, 0]. -/
theorem fold_nonpositive_spec (series : List SeriesRow) (L : ℚ)
    (hne : series ≠ []) (hL : L < 0) :
    fold series 0 = .error .zeroDivisionError ∧
    ∃ pts, fold series L = .ok pts ∧ pts.length = series.length ∧
      ∀ pt ∈ pts, L < pt.1 ∧ pt.1 ≤ 0 := by
  constructor
  · match series, hne with
    | r :: rest, _ => rfl
  · refine ⟨_, fold_ok series L (ne_of_lt hL), by rw [List.length_map], ?_⟩
    intro pt hpt
    simp only [List.mem_map] at hpt
    obtain ⟨r, _, hr⟩ := hpt
    subst hr
    exact ⟨pymod_gt _ _ hL, pymod_nonpos _ _ hL⟩

/-- C5 witness: the concrete instantiation at the 3-row series with
L = -1. -/
theorem fold_nonpositive_spec_witness :
    fold demoRows 0 = .error .zeroDivisionError ∧
    ∃ pts, fold demoRows (-1) = .ok pts ∧ pts.length = demoRows.length ∧
      ∀ pt ∈ pts, (-1 : ℚ) < pt.1 ∧ pt.1 ≤ 0 :=
  fold_nonpositive_spec demoRows (-1) (by simp [demoRows]) (by norm_num)

/-- C5 counterexample: at cycle length -1 the code raises nothing at all —
fold succeeds — and at cycle length 0 the raised error is the division
error, not the validation error the claim names. -/
theorem fold_nonpositive_counterexample :
    fold demoRows (-1) = .ok [(0, 10), (0, 20), (0, 30)] ∧
    fold demoRows 0 = .error .zeroDivisionError ∧
    PyError.zeroDivisionError ≠ PyError.invalidParameterError := by
  refine ⟨?_, rfl, by decide⟩
  rw [fold_ok demoRows (-1) (by norm_num)]
  simp [demoRows, pymod]
  norm_num

/-- C6 (amended): a zero stride makes resample (and the refresh call) fail,
but with the slicing error rather than a validation error, and the failure
leaves the loaded series and the derived column unmodified; a negative
stride is not rejected: resample succeeds, decimating the reversed series. -/
theorem resample_invalid_spec (series : List SeriesRow) (st : DashState)
    (p : ViewParams) (hstride : p.stride = 0) :
    resample series 0 = .error .valueError ∧
    ((refresh st p).1).rows = st.rows ∧
    ((refresh st p).1).variability = st.variability ∧
    ∀ s : Int, s < 0 → ∃ pts, resample series s = .ok pts := by
  have hstate : (refresh st p).1
      = { st with fig := { xrange := some (p.windowStart, p.windowEnd),
                           data := st.fig.data.take 1 } } := by
    unfold refresh
    rw [hstride, show resample st.rows 0 = .error .valueError from rfl]
  refine ⟨rfl, by rw [hstate], by rw [hstate], ?_⟩
  intro s hneg
  have hneg2 : resample series s
      = .ok ((everyNth series.reverse (-s).toNat).map
          (fun r => (r.timeFraction, r.meanValue))) := by
    unfold resample ilocSlice
    rw [if_neg (by omega : ¬ s = 0), if_neg (by omega : ¬ 0 < s)]
    rfl
  exact ⟨_, hneg2⟩

/-- C6 witness: the concrete instantiation at the 3-row series with a
stride-0 refresh call. -/
theorem resample_invalid_spec_witness :
    resample demoRows 0 = .error .valueError ∧
    ((refresh (initialState demoRows)
        { windowStart := 0, windowEnd := 2, stride := 0, cycleLength := 1 }).1).rows
      = (initialState demoRows).rows ∧
    ((refresh (initialState demoRows)
        { windowStart := 0, windowEnd := 2, stride := 0, cycleLength := 1 }).1).variability
      = (initialState demoRows).variability ∧
    ∀ s : Int, s < 0 → ∃ pts, resample demoRows s = .ok pts :=
  resample_invalid_spec demoRows (initialState demoRows)
    { windowStart := 0, windowEnd := 2, stride := 0, cycleLength := 1 } rfl

/-- C6 counterexample: stride 0 raises the slicing error, not the named
validation error, and stride -1 is accepted outright, returning the
series reversed. -/
theorem resample_invalid_counterexample :
    resample demoRows 0 = .error .valueError ∧
    resample demoRows (-1) = .ok [(2, 30), (1, 20), (0, 10)] ∧
    PyError.valueError ≠ PyError.invalidParameterError := by
  refine ⟨rfl, ?_, by decide⟩
  simp [resample, ilocSlice, everyNth, demoRows, Except.map]

/-- C7 (amended): the window label is produced with no validation at all:
for every pair of bounds, including windowStart > windowEnd, describe
returns the label embedding the exact bounds — no clamping, no error. -/
theorem describe_spec (ws we : Int) :
    describe ws we = .ok (yearLabel ws we) ∧
    ∃ u v w : String,
      yearLabel ws we = u ++ toString ws ++ v ++ toString we ++ w :=
  ⟨rfl, "You are currently viewing the years ", " to ", "!", rfl⟩

/-- C7 counterexample: with windowStart 2 greater than windowEnd 1,
describe does not fail — it returns the label for the reversed bounds. -/
theorem describe_counterexample :
    describe 2 1 = .ok "You are currently viewing the years 2 to 1!" ∧
    describe 2 1 ≠ .error .invalidParameterError := by
  constructor
  · rfl
  · simp [describe]

/-- C8: end-to-end on the 3-row synthetic series: stride 2 yields the
overlay points (0,10),(2,30); cycle length 1 folds all three rows to
phase 0 with the values 10, 20, 30 in the original order; and the window
(0, 2) yields a label containing both bound strings. -/
theorem end_to_end_spec :
    ∃ out, (refresh (initialState demoRows)
        { windowStart := 0, windowEnd := 2, stride := 2, cycleLength := 1 }).2
      = .ok out ∧
      out.fig.data = [baseTrace demoRows, smoothedTrace [(0, 10), (2, 30)]] ∧
      out.varFig.foldedPoints = [(0, 10), (0, 20), (0, 30)] ∧
      (∃ u v : String, out.label = u ++ "0" ++ v) ∧
      (∃ u v : String, out.label = u ++ "2" ++ v) := by
  have h1 : resample demoRows 2 = .ok [(0, 10), (2, 30)] := by
    simp [resample, ilocSlice, everyNth, demoRows, Except.map]
  have h2 : fold demoRows 1 = .ok [(0, 10), (0, 20), (0, 30)] := by
    rw [fold_ok demoRows 1 (by norm_num)]
    simp [demoRows, pymod]
  have hout := refresh_ok (initialState demoRows)
    { windowStart := 0, windowEnd := 2, stride := 2, cycleLength := 1 }
    [(0, 10), (2, 30)] [(0, 10), (0, 20), (0, 30)] h1 h2
  refine ⟨_, hout, rfl, rfl, ?_, ?_⟩
  · exact ⟨"You are currently viewing the years ", " to 2!", by decide⟩
  · exact ⟨"You are currently viewing the years 0 to ", "!", by decide⟩

theorem yearLabel_default : yearLabel 1749 2022 = initialYearLabel := by decide

/-- C9: the layout supplies the documented defaults — the window defaults
to the full slider span (1749, 2022), the stride to 5, the cycle length to
11 — the hard-coded initial label equals the label computed for the
default window, the load-time Variability column is the fold at the
default cycle length, the initial scatter is built from exactly that
column, and the first callback invocation at exactly these defaults
succeeds, reproducing the initial label and cycle length. -/
theorem initial_defaults (rows : List SeriesRow) :
    defaultWindow = (1749, 2022) ∧ defaultWindow = (sliderMin, sliderMax) ∧
    defaultStride = 5 ∧ defaultCycleLength = 11 ∧
    initialYearLabel = yearLabel defaultWindow.1 defaultWindow.2 ∧
    (initialState rows).variability
      = rows.map (fun r => pymod r.timeFraction defaultCycleLength) ∧
    (initialVarFig rows).cycleLength = defaultCycleLength ∧
    (initialVarFig rows).foldedPoints
      = ((initialState rows).variability).zip (rows.map SeriesRow.meanValue) ∧
    ∃ out, (refresh (initialState rows)
        { windowStart := defaultWindow.1, windowEnd := defaultWindow.2,
          stride := defaultStride, cycleLength := defaultCycleLength }).2
      = .ok out ∧
      out.label = initialYearLabel ∧
      out.varFig.cycleLength = defaultCycleLength ∧
      out.varFig.foldedPoints
        = rows.map (fun r => (pymod r.timeFraction defaultCycleLength, r.meanValue)) := by
  have h1 : resample rows 5
      = .ok ((everyNth rows 5).map (fun r => (r.timeFraction, r.meanValue))) := by
    unfold resample ilocSlice
    rw [if_neg (by omega : ¬ (5 : Int) = 0), if_pos (by omega : (0 : Int) < 5)]
    rfl
  have h2 := fold_ok rows 11 (by norm_num)
  exact ⟨rfl, rfl, rfl, rfl, yearLabel_default.symm, rfl, rfl, rfl,
    _, refresh_ok (initialState rows) _ _ _ h1 h2, yearLabel_default, rfl, rfl⟩
